import Mathlib

/-!
Shallow embedding of the receipt lifecycle and RAV aggregation subsystem of the
`indexer-rs` repository, translated from the Rust sources under `common`,
`tap-agent` and `tap`. Machine integers are modelled as `Nat` with explicit
bounds where overflow or conversion matters; database tables are lists of rows;
fallible operations return `Except`. External effects (the aggregator RPC, the
eventuals feed plumbing, signature recovery) enter as explicit parameters.
-/

namespace IndexerRs

/-- Largest value representable in a `u128`. -/
def U128_MAX : Nat := 2 ^ 128 - 1

/-- First natural number that does not fit in an `i64`; a `u64 → i64`
conversion succeeds exactly below this bound. -/
def I64_BOUND : Nat := 2 ^ 63

/-- In-memory unaggregated fee state of a sender-allocation actor
(`tap-agent/src/agent/unaggregated_receipts.rs`): the max receipt row id seen
and the running `u128` fee sum. `Default` in the source is all zeroes. -/
structure UnaggregatedReceipts where
  last_id : Nat
  value : Nat
  deriving Repr, DecidableEq

/-- A row of the `scalar_tap_receipts` table as used by the tap-agent queries:
`id` is a positive serial, addresses are stored as lowercase hex strings,
`timestamp_ns`, `nonce` and `value` are numeric columns holding `u64`/`u128`
values. -/
structure ReceiptRow where
  id : Nat
  allocation_id : String
  signer_address : String
  signature : String
  timestamp_ns : Nat
  nonce : Nat
  value : Nat
  deriving Repr, DecidableEq

/-- A row of the `scalar_tap_ravs` table: one RAV per
`(allocation_id, sender_address)` pair, with the `last` and `final` boolean
flags. -/
structure RavRow where
  allocation_id : String
  sender_address : String
  timestamp_ns : Nat
  value_aggregate : Nat
  signature : String
  last : Bool
  final : Bool
  deriving Repr, DecidableEq

/-- The slice of the database the tap-agent actor touches. -/
structure Database where
  receipts : List ReceiptRow
  ravs : List RavRow
  deriving Repr, DecidableEq

/-- `u128::checked_add`: `none` exactly when the sum overflows a `u128`. -/
def checkedAddU128 (a b : Nat) : Option Nat :=
  if a + b ≤ U128_MAX then some (a + b) else none

/-- Result of one `SenderAllocationMessage::NewReceipt` handler run: the new
actor state, the `UpdateReceiptFees` state pushed to the parent sender-account
actor (if any), and whether the overflow `error!` log fired. -/
structure NewReceiptOutcome where
  state : UnaggregatedReceipts
  pushed : Option UnaggregatedReceipts
  overflowLogged : Bool
  deriving Repr, DecidableEq

/-- Handler arm for `SenderAllocationMessage::NewReceipt` in
`tap-agent/src/agent/sender_allocation.rs` (lines 169-191): if the notification
id exceeds `last_id`, take it as the new `last_id`, add the fees with
`checked_add(..).unwrap_or_else(log error; u128::MAX)` and push the updated
state to the parent; otherwise leave the state untouched and push nothing. -/
def handle_new_receipt (st : UnaggregatedReceipts) (id fees : Nat) : NewReceiptOutcome :=
  if st.last_id < id then
    let v := (checkedAddU128 st.value fees).getD U128_MAX
    let st' : UnaggregatedReceipts := ⟨id, v⟩
    ⟨st', some st', (checkedAddU128 st.value fees).isNone⟩
  else
    ⟨st, none, false⟩

end IndexerRs

namespace IndexerRs

/-- C2: a `NewReceipt` notification with `id ≤ last_id` leaves the state
unchanged and pushes nothing to the parent; with `id > last_id` the state
becomes `{ last_id := id, value := saturated sum }` (clamped at `u128::MAX`,
logging exactly when the unclamped sum overflows) and that state is pushed. -/
theorem new_receipt_dedup_and_saturation (st : UnaggregatedReceipts) (id fees : Nat) :
    (id ≤ st.last_id → handle_new_receipt st id fees = ⟨st, none, false⟩) ∧
    (st.last_id < id →
      handle_new_receipt st id fees =
        ⟨⟨id, min (st.value + fees) U128_MAX⟩,
         some ⟨id, min (st.value + fees) U128_MAX⟩,
         decide (U128_MAX < st.value + fees)⟩) := by
  constructor
  · intro h
    have h' : ¬ st.last_id < id := Nat.not_lt.mpr h
    simp [handle_new_receipt, h']
  · intro h
    by_cases hov : st.value + fees ≤ U128_MAX
    · have hmin : min (st.value + fees) U128_MAX = st.value + fees := Nat.min_eq_left hov
      have hlt : ¬ U128_MAX < st.value + fees := Nat.not_lt.mpr hov
      simp [handle_new_receipt, h, checkedAddU128, hov, hmin, hlt]
    · have hlt : U128_MAX < st.value + fees := Nat.lt_of_not_le hov
      have hmin : min (st.value + fees) U128_MAX = U128_MAX :=
        Nat.min_eq_right (Nat.le_of_lt hlt)
      simp [handle_new_receipt, h, checkedAddU128, hov, hmin, hlt]

/-- Witness for `new_receipt_dedup_and_saturation` at state `⟨3, 10⟩`,
notification id `5`, fees `7`. -/
theorem new_receipt_dedup_and_saturation_witness :
    (3 : Nat) < 5 ∧
      handle_new_receipt ⟨3, 10⟩ 5 7 =
        ⟨⟨5, min (10 + 7) U128_MAX⟩, some ⟨5, min (10 + 7) U128_MAX⟩,
         decide (U128_MAX < 10 + 7)⟩ :=
  ⟨by decide, (new_receipt_dedup_and_saturation ⟨3, 10⟩ 5 7).2 (by decide)⟩

/-- The scalar subquery `WITH rav AS (SELECT timestamp_ns FROM scalar_tap_ravs
WHERE allocation_id = $1 AND sender_address = $2)` of
`calculate_unaggregated_fee`: `none` when the pair has no RAV row (the table
holds at most one row per pair). -/
def ravTimestamp (db : Database) (alloc sender : String) : Option Nat :=
  (db.ravs.find? (fun r => r.allocation_id == alloc && r.sender_address == sender)).map
    (fun r => r.timestamp_ns)

/-- The `WHERE` clause of the receipt-sum query in `calculate_unaggregated_fee`
(`sender_allocation.rs` lines 260-273): same allocation, signer in the trimmed
signer set, and `CASE WHEN rav IS NOT NULL THEN timestamp_ns > rav.timestamp_ns
ELSE TRUE END`. -/
def receiptMatches (alloc : String) (signers : List String) (ravTs : Option Nat)
    (r : ReceiptRow) : Bool :=
  r.allocation_id == alloc && signers.contains r.signer_address &&
    (match ravTs with
     | some t => decide (t < r.timestamp_ns)
     | none => true)

/-- The receipt rows the receipt-sum query ranges over for a pair: the rows of
the signer set whose timestamp is strictly beyond the stored RAV timestamp,
all of them when the pair has no RAV. -/
def countedReceipts (db : Database) (alloc sender : String) (signers : List String) :
    List ReceiptRow :=
  db.receipts.filter (receiptMatches alloc signers (ravTimestamp db alloc sender))

/-- `MAX(id)` over a set of receipt rows (`0` stands in for the empty set,
where the SQL aggregate is `NULL` and the caller substitutes `0`). -/
def maxIdOf (rows : List ReceiptRow) : Nat :=
  (rows.map (fun r => r.id)).foldl max 0

/-- `SUM(value)` over a set of receipt rows. -/
def sumValueOf (rows : List ReceiptRow) : Nat :=
  (rows.map (fun r => r.value)).sum

/-- The `SELECT MAX(id), SUM(value)` query of `calculate_unaggregated_fee`
(lines 244-280): both aggregates are `NULL` exactly when no row matches. -/
def sumValuesQuery (db : Database) (alloc sender : String) (signers : List String) :
    Option Nat × Option Nat :=
  let rows := countedReceipts db alloc sender signers
  if rows.isEmpty then (none, none)
  else (some (maxIdOf rows), some (sumValueOf rows))

/-- Modelled from the spec: `Manager::remove_obsolete_receipts` (tap_core,
backed by the repository receipt storage adapter, neither under `src/`) —
§4.B `delete_obsolete(allocation, sender)` removes the receipts of the pair
whose `timestamp_ns ≤` the current RAV timestamp; without a RAV it removes
nothing. -/
def removeObsoleteReceipts (db : Database) (alloc sender : String)
    (signers : List String) : Database :=
  match ravTimestamp db alloc sender with
  | none => db
  | some t =>
    { db with
      receipts := db.receipts.filter (fun r =>
        !(r.allocation_id == alloc && signers.contains r.signer_address &&
          decide (r.timestamp_ns ≤ t))) }

/-- Lines 282-294 of `sender_allocation.rs`: the
`ensure!(res.sum.is_none() == res.max.is_none())` null-mismatch check, then
`last_id = max.unwrap_or(0).try_into()?` and
`value = sum.unwrap_or(0).to_string().parse::<u128>()?`. Ids are modelled as
`Nat` (the column is a positive serial), so the `i64 → u64` conversion always
succeeds; the `u128` parse fails exactly when the sum exceeds `u128::MAX`. -/
def calcFromQueryResult (maxId sum : Option Nat) : Except String UnaggregatedReceipts :=
  if sum.isNone == maxId.isNone then
    if sum.getD 0 ≤ U128_MAX then .ok ⟨maxId.getD 0, sum.getD 0⟩
    else .error "parse u128 failed"
  else .error "Exactly one of SUM(value) and MAX(id) is null. This should not happen."

/-- `calculate_unaggregated_fee` (`sender_allocation.rs` lines 238-295): delete
obsolete receipts, run the receipt-sum query, and build the
`UnaggregatedReceipts` state from its two aggregates. The trimmed signer set
obtained from the escrow feed is a parameter. -/
def calculate_unaggregated_fee (db : Database) (alloc sender : String)
    (signers : List String) : Except String UnaggregatedReceipts :=
  let db1 := removeObsoleteReceipts db alloc sender signers
  let res := sumValuesQuery db1 alloc sender signers
  calcFromQueryResult res.1 res.2

/-- Deleting obsolete receipts does not touch the RAV table. -/
theorem ravTimestamp_removeObsolete (db : Database) (alloc sender : String)
    (signers : List String) :
    ravTimestamp (removeObsoleteReceipts db alloc sender signers) alloc sender =
      ravTimestamp db alloc sender := by
  have hravs : (removeObsoleteReceipts db alloc sender signers).ravs = db.ravs := by
    unfold removeObsoleteReceipts
    cases ravTimestamp db alloc sender <;> rfl
  simp [ravTimestamp, hravs]

/-- The rows removed as obsolete are outside the receipt-sum filter, so the
query ranges over the same rows before and after the deletion. -/
theorem countedReceipts_removeObsolete (db : Database) (alloc sender : String)
    (signers : List String) :
    countedReceipts (removeObsoleteReceipts db alloc sender signers) alloc sender signers =
      countedReceipts db alloc sender signers := by
  unfold countedReceipts
  rw [ravTimestamp_removeObsolete]
  cases h : ravTimestamp db alloc sender with
  | none => simp [removeObsoleteReceipts, h]
  | some t =>
    show ((removeObsoleteReceipts db alloc sender signers).receipts.filter
        (receiptMatches alloc signers (some t))) = _
    have hrec : (removeObsoleteReceipts db alloc sender signers).receipts =
        db.receipts.filter (fun r =>
          !(r.allocation_id == alloc && signers.contains r.signer_address &&
            decide (r.timestamp_ns ≤ t))) := by
      simp [removeObsoleteReceipts, h]
    rw [hrec, List.filter_filter]
    refine List.filter_congr ?_
    intro r _
    by_cases hm : receiptMatches alloc signers (some t) r = true
    · have hts : t < r.timestamp_ns := by
        have := hm
        simp [receiptMatches] at this
        exact this.2
      have halloc : (r.allocation_id == alloc) = true := by
        have := hm
        simp [receiptMatches] at this
        simp [this.1.1]
      have hsig : signers.contains r.signer_address = true := by
        have := hm
        simp [receiptMatches] at this
        simp [this.1.2]
      have hle : ¬ r.timestamp_ns ≤ t := Nat.not_le.mpr hts
      simp [hm, halloc, hsig, hle]
    · simp [Bool.eq_false_iff.mpr hm]

/-- Refinement of the full `calculate_unaggregated_fee` pipeline: whenever the
matched sum fits in a `u128`, it returns the maximum id and the value sum over
exactly the rows of `countedReceipts` on the original database. -/
theorem calculate_unaggregated_fee_eq (db : Database) (alloc sender : String)
    (signers : List String)
    (h : sumValueOf (countedReceipts db alloc sender signers) ≤ U128_MAX) :
    calculate_unaggregated_fee db alloc sender signers =
      .ok ⟨maxIdOf (countedReceipts db alloc sender signers),
           sumValueOf (countedReceipts db alloc sender signers)⟩ := by
  unfold calculate_unaggregated_fee
  have hc := countedReceipts_removeObsolete db alloc sender signers
  by_cases hemp : (countedReceipts db alloc sender signers).isEmpty
  · have hnil : countedReceipts db alloc sender signers = [] := List.isEmpty_iff.mp hemp
    simp [sumValuesQuery, hc, hnil, calcFromQueryResult, maxIdOf, sumValueOf]
  · have hq : sumValuesQuery (removeObsoleteReceipts db alloc sender signers)
        alloc sender signers =
        (some (maxIdOf (countedReceipts db alloc sender signers)),
         some (sumValueOf (countedReceipts db alloc sender signers))) := by
      simp [sumValuesQuery, hc, hemp]
    simp [hq, calcFromQueryResult, h]

/-- C1: the initial computation of `UnaggregatedReceipts` counts exactly the
receipts of the pair whose signer is in the signer set and whose
`timestamp_ns` is strictly greater than the stored RAV timestamp — all such
receipts when the pair has no RAV (`countedReceipts` is precisely that
filter over the original table). -/
theorem initial_fee_counts_receipts_beyond_rav (db : Database) (alloc sender : String)
    (signers : List String)
    (h : sumValueOf (countedReceipts db alloc sender signers) ≤ U128_MAX) :
    calculate_unaggregated_fee db alloc sender signers =
      .ok ⟨maxIdOf (countedReceipts db alloc sender signers),
           sumValueOf (countedReceipts db alloc sender signers)⟩ :=
  calculate_unaggregated_fee_eq db alloc sender signers h

/-- The literal scenario of the claim: a stored RAV at `timestamp_ns = 4`,
`value = 10`, and receipts `(id, timestamp_ns, value) = (1..9, 1..9, 1..9)`. -/
def dbStraddle : Database :=
  ⟨[⟨1, "0xa", "0xsg", "s1", 1, 1, 1⟩, ⟨2, "0xa", "0xsg", "s2", 2, 2, 2⟩,
    ⟨3, "0xa", "0xsg", "s3", 3, 3, 3⟩, ⟨4, "0xa", "0xsg", "s4", 4, 4, 4⟩,
    ⟨5, "0xa", "0xsg", "s5", 5, 5, 5⟩, ⟨6, "0xa", "0xsg", "s6", 6, 6, 6⟩,
    ⟨7, "0xa", "0xsg", "s7", 7, 7, 7⟩, ⟨8, "0xa", "0xsg", "s8", 8, 8, 8⟩,
    ⟨9, "0xa", "0xsg", "s9", 9, 9, 9⟩],
   [⟨"0xa", "0xs", 4, 10, "rs", false, false⟩]⟩

/-- Witness for `initial_fee_counts_receipts_beyond_rav` on `dbStraddle`: the
computed state value is `35` (the sum of the values at timestamps 5..9). -/
theorem initial_fee_counts_receipts_beyond_rav_witness :
    sumValueOf (countedReceipts dbStraddle "0xa" "0xs" ["0xsg"]) ≤ U128_MAX ∧
      calculate_unaggregated_fee dbStraddle "0xa" "0xs" ["0xsg"] = .ok ⟨9, 35⟩ := by
  refine ⟨by decide, ?_⟩
  rw [initial_fee_counts_receipts_beyond_rav dbStraddle "0xa" "0xs" ["0xsg"] (by decide)]
  rfl

/-- C7 (counterexample): with `MAX(id) = 1` and `SUM(value) = 2^128` — both
aggregates non-NULL — the state construction still fails (the `u128` parse of
the sum), though the claim allows failure only when exactly one of the two is
NULL. -/
theorem calc_from_query_result_counterexample :
    calcFromQueryResult (some 1) (some (2 ^ 128)) = .error "parse u128 failed" := by
  rfl

/-- C7 (amended): the construction of `UnaggregatedReceipts` from the
receipt-sum query fails on a null mismatch between `MAX(id)` and `SUM(value)`,
returns `{last_id := 0, value := 0}` when both are NULL, returns the two values
when both are present and the sum fits in a `u128`, and also fails when the sum
exceeds `u128::MAX`. -/
theorem calc_from_query_result_partition :
    (calcFromQueryResult none none = .ok ⟨0, 0⟩) ∧
    (∀ m s : Nat, s ≤ U128_MAX → calcFromQueryResult (some m) (some s) = .ok ⟨m, s⟩) ∧
    (∀ m s : Nat, U128_MAX < s →
      calcFromQueryResult (some m) (some s) = .error "parse u128 failed") ∧
    (∀ m : Nat, calcFromQueryResult (some m) none =
      .error "Exactly one of SUM(value) and MAX(id) is null. This should not happen.") ∧
    (∀ s : Nat, calcFromQueryResult none (some s) =
      .error "Exactly one of SUM(value) and MAX(id) is null. This should not happen.") := by
  refine ⟨by rfl, ?_, ?_, ?_, ?_⟩
  · intro m s h
    simp [calcFromQueryResult, h]
  · intro m s h
    simp [calcFromQueryResult, Nat.not_le.mpr h]
  · intro m
    simp [calcFromQueryResult]
  · intro s
    simp [calcFromQueryResult]

/-- Witness for `calc_from_query_result_partition` at `MAX(id) = 3`,
`SUM(value) = 7`. -/
theorem calc_from_query_result_partition_witness :
    (7 : Nat) ≤ U128_MAX ∧ calcFromQueryResult (some 3) (some 7) = .ok ⟨3, 7⟩ :=
  ⟨by decide, calc_from_query_result_partition.2.1 3 7 (by decide)⟩

/-- Observable actions of a sender-allocation actor handler: the outbound RAV
request round-trip, a reply on an rpc reply port, a request to stop itself,
and an `UpdateReceiptFees` push to the parent sender-account actor. -/
inductive ActorEffect where
  | ravRequest
  | reply (state : UnaggregatedReceipts)
  | stopSelf
  | updateReceiptFees (alloc : String) (state : UnaggregatedReceipts)
  deriving Repr, DecidableEq

/-- Recognizer for the RAV request effect. -/
def isRavRequest : ActorEffect → Bool
  | .ravRequest => true
  | _ => false

/-- Handler arm for `SenderAllocationMessage::TriggerRAVRequest`
(`sender_allocation.rs` lines 193-206). `ravOutcome` abstracts the one
`rav_requester_single` round-trip: on success it carries the database as left
by the writes of the RAV request. On failure the error is wrapped by the
`map_err` of the handler and propagates as an actor error; on success the
state is recomputed from the database and sent on the reply port only if that
port is still open. -/
def handle_trigger_rav_request (ravOutcome : Except String Database)
    (alloc sender : String) (signers : List String) (replyClosed : Bool) :
    Except String UnaggregatedReceipts × List ActorEffect :=
  match ravOutcome with
  | .error e =>
    (.error ("Error while requesting RAV for sender " ++ sender ++
      " and allocation " ++ alloc ++ ": " ++ e), [.ravRequest])
  | .ok db =>
    match calculate_unaggregated_fee db alloc sender signers with
    | .error e => (.error e, [.ravRequest])
    | .ok ur => (.ok ur, .ravRequest :: (if replyClosed then [] else [.reply ur]))

/-- C5: every `TriggerRAVRequest` run performs exactly one RAV request; on
failure the error propagates as an actor error; on success the state is
recomputed from the database and replied only while the reply port is open;
and when the stored RAV of the pair covers every stored receipt of the pair,
the replied state value is `0`. -/
theorem trigger_rav_request_spec :
    (∀ (out : Except String Database) (alloc sender : String) (signers : List String)
        (replyClosed : Bool),
      ((handle_trigger_rav_request out alloc sender signers replyClosed).2.countP
        isRavRequest) = 1) ∧
    (∀ (e : String) (alloc sender : String) (signers : List String) (replyClosed : Bool),
      ∃ msg, handle_trigger_rav_request (.error e) alloc sender signers replyClosed =
        (.error msg, [.ravRequest])) ∧
    (∀ (db : Database) (alloc sender : String) (signers : List String)
        (replyClosed : Bool) (ur : UnaggregatedReceipts),
      calculate_unaggregated_fee db alloc sender signers = .ok ur →
      handle_trigger_rav_request (.ok db) alloc sender signers replyClosed =
        (.ok ur, .ravRequest :: (if replyClosed then [] else [.reply ur]))) ∧
    (∀ (db : Database) (alloc sender : String) (signers : List String) (t : Nat),
      ravTimestamp db alloc sender = some t →
      (∀ r ∈ db.receipts, r.allocation_id = alloc → r.signer_address ∈ signers →
        r.timestamp_ns ≤ t) →
      handle_trigger_rav_request (.ok db) alloc sender signers false =
        (.ok ⟨0, 0⟩, [.ravRequest, .reply ⟨0, 0⟩])) := by
  have hcover : ∀ (db : Database) (alloc sender : String) (signers : List String) (t : Nat),
      ravTimestamp db alloc sender = some t →
      (∀ r ∈ db.receipts, r.allocation_id = alloc → r.signer_address ∈ signers →
        r.timestamp_ns ≤ t) →
      countedReceipts db alloc sender signers = [] := by
    intro db alloc sender signers t hrav hle
    unfold countedReceipts
    rw [hrav]
    refine List.filter_eq_nil_iff.mpr ?_
    intro r hr hm
    simp only [receiptMatches, Bool.and_eq_true, beq_iff_eq, decide_eq_true_eq] at hm
    exact Nat.not_le.mpr hm.2 (hle r hr hm.1.1 (List.mem_of_elem_eq_true hm.1.2))
  refine ⟨?_, ?_, ?_, ?_⟩
  · intro out alloc sender signers replyClosed
    cases out with
    | error e => rfl
    | ok db =>
      cases hcalc : calculate_unaggregated_fee db alloc sender signers with
      | error e => simp [handle_trigger_rav_request, hcalc, List.countP, List.countP.go, isRavRequest]
      | ok ur =>
        cases replyClosed <;>
          simp [handle_trigger_rav_request, hcalc, List.countP, List.countP.go, isRavRequest]
  · intro e alloc sender signers replyClosed
    exact ⟨_, rfl⟩
  · intro db alloc sender signers replyClosed ur hcalc
    simp [handle_trigger_rav_request, hcalc]
  · intro db alloc sender signers t hrav hle
    have hnil := hcover db alloc sender signers t hrav hle
    have hcalc : calculate_unaggregated_fee db alloc sender signers = .ok ⟨0, 0⟩ := by
      have := calculate_unaggregated_fee_eq db alloc sender signers
        (by rw [hnil]; simp [sumValueOf])
      rw [hnil] at this
      simpa [maxIdOf, sumValueOf] using this
    simp [handle_trigger_rav_request, hcalc]

/-- A pair whose stored RAV (timestamp 10) covers its single stored receipt
(timestamp 1). -/
def dbCovered : Database :=
  ⟨[⟨1, "0xa", "0xsg", "s1", 1, 1, 5⟩], [⟨"0xa", "0xs", 10, 45, "rs", true, false⟩]⟩

/-- Witness for `trigger_rav_request_spec` on `dbCovered`: the RAV covers all
stored receipts, so the replied state value is `0`. -/
theorem trigger_rav_request_spec_witness :
    ravTimestamp dbCovered "0xa" "0xs" = some 10 ∧
      handle_trigger_rav_request (.ok dbCovered) "0xa" "0xs" ["0xsg"] false =
        (.ok ⟨0, 0⟩, [.ravRequest, .reply ⟨0, 0⟩]) :=
  ⟨by decide,
   trigger_rav_request_spec.2.2.2 dbCovered "0xa" "0xs" ["0xsg"] 10 (by decide) (by decide)⟩

/-- `mark_rav_last` (`sender_allocation.rs` lines 387-407):
`UPDATE scalar_tap_ravs SET last = true WHERE allocation_id = $1 AND
sender_address = $2`, then bail unless exactly one row was affected. It is the
only RAV-marking statement in the source, and the column it sets is `last`. -/
def mark_rav_last (db : Database) (alloc sender : String) : Except String Database :=
  let affected := (db.ravs.filter (fun r =>
      r.allocation_id == alloc && r.sender_address == sender)).length
  let db' : Database := { db with ravs := db.ravs.map (fun r =>
      if r.allocation_id == alloc && r.sender_address == sender then
        { r with last := true } else r) }
  if affected == 1 then .ok db'
  else .error ("Expected exactly one row to be updated in the latest RAVs table, but "
      ++ toString affected ++ " were updated.")

/-- Handler arm for `SenderAllocationMessage::CloseAllocation` (lines 208-222):
one final RAV request (`inspect_err` only logs, the error propagates
unwrapped), then the RAV row of the pair is marked, then the actor requests
its own stop. -/
def handle_close_allocation (ravOutcome : Except String Database) (alloc sender : String) :
    Except String Database × List ActorEffect :=
  match ravOutcome with
  | .error e => (.error e, [.ravRequest])
  | .ok db =>
    match mark_rav_last db alloc sender with
    | .error e => (.error e, [.ravRequest])
    | .ok db' => (.ok db', [.ravRequest, .stopSelf])

/-- `post_stop` (lines 146-159): push zeroed `UpdateReceiptFees` for the
allocation to the parent sender-account actor
(`UnaggregatedReceipts::default()` is all zeroes). -/
def post_stop_effect (alloc : String) : ActorEffect :=
  .updateReceiptFees alloc ⟨0, 0⟩

/-- A pair with one stored RAV row, `last = false`, `final = false`. -/
def dbClose : Database := ⟨[], [⟨"0xa", "0xs", 4, 10, "rs", false, false⟩]⟩

/-- `dbClose` after a successful `CloseAllocation`: `last` was set, `final`
was not. -/
def dbCloseAfter : Database := ⟨[], [⟨"0xa", "0xs", 4, 10, "rs", true, false⟩]⟩

/-- C6 (counterexample): a successful `CloseAllocation` on `dbClose` updates
the stored RAV row of the pair, but the column it sets to true is `last` —
after the handler no row has `final = true`, contrary to the claim. -/
theorem close_allocation_counterexample :
    handle_close_allocation (.ok dbClose) "0xa" "0xs" =
      (.ok dbCloseAfter, [.ravRequest, .stopSelf]) ∧
      dbCloseAfter.ravs.all (fun r => !r.final) = true := by
  exact ⟨by rfl, by rfl⟩

/-- C6 (amended): `CloseAllocation` performs the final RAV request (a failure
propagates as an actor error), then sets `last = true` — not `final` — on the
RAV rows of the pair, failing as an actor error unless exactly one row was
affected, then requests its own stop; and on stop the actor pushes
`UpdateReceiptFees(allocation_id, zero)` to its parent. -/
theorem close_allocation_marks_last_and_stops :
    (∀ (e : String) (alloc sender : String),
      handle_close_allocation (.error e) alloc sender = (.error e, [.ravRequest])) ∧
    (∀ (db : Database) (alloc sender : String),
      (db.ravs.filter (fun r =>
        r.allocation_id == alloc && r.sender_address == sender)).length = 1 →
      handle_close_allocation (.ok db) alloc sender =
        (.ok { db with ravs := db.ravs.map (fun r =>
            if r.allocation_id == alloc && r.sender_address == sender then
              { r with last := true } else r) },
         [.ravRequest, .stopSelf])) ∧
    (∀ (db : Database) (alloc sender : String),
      (db.ravs.filter (fun r =>
        r.allocation_id == alloc && r.sender_address == sender)).length ≠ 1 →
      handle_close_allocation (.ok db) alloc sender =
        (.error ("Expected exactly one row to be updated in the latest RAVs table, but "
            ++ toString ((db.ravs.filter (fun r =>
              r.allocation_id == alloc && r.sender_address == sender)).length)
            ++ " were updated."),
         [.ravRequest])) ∧
    (∀ alloc : String, post_stop_effect alloc = .updateReceiptFees alloc ⟨0, 0⟩) := by
  refine ⟨fun e alloc sender => rfl, ?_, ?_, fun alloc => rfl⟩
  · intro db alloc sender h
    simp [handle_close_allocation, mark_rav_last, h]
  · intro db alloc sender h
    have hbeq : ((db.ravs.filter (fun r =>
        r.allocation_id == alloc && r.sender_address == sender)).length == 1) = false := by
      simpa using h
    simp [handle_close_allocation, mark_rav_last, hbeq]

/-- Witness for `close_allocation_marks_last_and_stops` on `dbClose`. -/
theorem close_allocation_marks_last_and_stops_witness :
    (dbClose.ravs.filter (fun r =>
        r.allocation_id == "0xa" && r.sender_address == "0xs")).length = 1 ∧
      handle_close_allocation (.ok dbClose) "0xa" "0xs" =
        (.ok dbCloseAfter, [.ravRequest, .stopSelf]) := by
  refine ⟨by decide, ?_⟩
  rw [close_allocation_marks_last_and_stops.2.1 dbClose "0xa" "0xs" (by decide)]
  rfl

/-- A receipt aggregate voucher message. -/
structure Rav where
  allocation_id : String
  timestamp_ns : Nat
  value_aggregate : Nat
  deriving Repr, DecidableEq

/-- A RAV with the EIP-712 signature of the aggregator. -/
structure SignedRav where
  message : Rav
  signature : String
  deriving Repr, DecidableEq

/-- The `tap_core` errors distinguished by the `verify_and_store_rav` match in
`rav_requester_single` (`sender_allocation.rs` lines 352-383). -/
inductive TapCoreError where
  | adapterError (source_error : String)
  | invalidReceivedRAV
  | signatureError (e : String)
  | invalidRecoveredSigner (address : String)
  | otherError (e : String)
  deriving Repr, DecidableEq

/-- The rendering of a `tap_core` error used as the persisted failure reason
(`e.to_string()` at line 374). -/
def TapCoreError.toMessage : TapCoreError → String
  | .adapterError e => "adapter error: " ++ e
  | .invalidReceivedRAV => "Received RAV does not match expexted RAV"
  | .signatureError e => "signature error: " ++ e
  | .invalidRecoveredSigner a => "Recovered sender address invalid: " ++ a
  | .otherError e => e

/-- A row of the `scalar_tap_rav_requests_failed` table as inserted by
`store_failed_rav` (lines 449-477): the pair, the expected RAV, the received
response and the reason text. -/
structure FailedRavRow where
  allocation_id : String
  sender_address : String
  expected_rav : Rav
  rav_response : SignedRav
  reason : String
  deriving Repr, DecidableEq

/-- The `verify_and_store_rav` outcome match of `rav_requester_single`
(lines 352-383): `Ok` passes through; an adapter error bails without writing;
each of `InvalidReceivedRAV`, `SignatureError` and `InvalidRecoveredSigner`
first persists one `scalar_tap_rav_requests_failed` row via `store_failed_rav`
and then bails; any other error bails without writing. Returns the surfaced
result together with the failed-RAV rows appended by the run. -/
def handle_rav_verify_outcome (alloc sender : String) (expected : Rav)
    (response : SignedRav) (verifyResult : Except TapCoreError Unit) :
    Except String Unit × List FailedRavRow :=
  match verifyResult with
  | .ok _ => (.ok (), [])
  | .error (.adapterError e) =>
    (.error ("TAP Adapter error while storing RAV: " ++ e), [])
  | .error .invalidReceivedRAV =>
    (.error "Invalid RAV, sender could be malicious.",
     [⟨alloc, sender, expected, response, TapCoreError.invalidReceivedRAV.toMessage⟩])
  | .error (.signatureError e) =>
    (.error "Invalid RAV, sender could be malicious.",
     [⟨alloc, sender, expected, response, (TapCoreError.signatureError e).toMessage⟩])
  | .error (.invalidRecoveredSigner a) =>
    (.error "Invalid RAV, sender could be malicious.",
     [⟨alloc, sender, expected, response, (TapCoreError.invalidRecoveredSigner a).toMessage⟩])
  | .error e => (.error ("Error while verifying and storing RAV: " ++ e.toMessage), [])

/-- C8: the RAV verification outcome is partitioned — success writes nothing
and surfaces no error; an adapter/storage error surfaces an error without
writing a failed-RAV row; each of the three verification failures persists
exactly one `rav_requests_failed` row carrying the expected RAV, the received
RAV and the failure reason, and then surfaces the malicious-sender error. -/
theorem rav_verify_outcome_partition :
    (∀ (alloc sender : String) (expected : Rav) (response : SignedRav),
      handle_rav_verify_outcome alloc sender expected response (.ok ()) = (.ok (), [])) ∧
    (∀ (alloc sender : String) (expected : Rav) (response : SignedRav) (e : String),
      handle_rav_verify_outcome alloc sender expected response
          (.error (.adapterError e)) =
        (.error ("TAP Adapter error while storing RAV: " ++ e), [])) ∧
    (∀ (alloc sender : String) (expected : Rav) (response : SignedRav)
        (e : TapCoreError),
      (e = .invalidReceivedRAV ∨ (∃ s, e = .signatureError s) ∨
        (∃ a, e = .invalidRecoveredSigner a)) →
      handle_rav_verify_outcome alloc sender expected response (.error e) =
        (.error "Invalid RAV, sender could be malicious.",
         [⟨alloc, sender, expected, response, e.toMessage⟩])) := by
  refine ⟨fun _ _ _ _ => rfl, fun _ _ _ _ _ => rfl, ?_⟩
  intro alloc sender expected response e he
  rcases he with h | ⟨s, h⟩ | ⟨a, h⟩ <;> subst h <;> rfl

/-- Witness for `rav_verify_outcome_partition` at the `InvalidReceivedRAV`
failure on a concrete expected/received pair. -/
theorem rav_verify_outcome_partition_witness :
    (TapCoreError.invalidReceivedRAV = .invalidReceivedRAV ∨
      (∃ s, TapCoreError.invalidReceivedRAV = .signatureError s) ∨
      (∃ a, TapCoreError.invalidReceivedRAV = .invalidRecoveredSigner a)) ∧
      handle_rav_verify_outcome "0xa" "0xs" ⟨"0xa", 4, 10⟩ ⟨⟨"0xa", 4, 11⟩, "sig"⟩
          (.error .invalidReceivedRAV) =
        (.error "Invalid RAV, sender could be malicious.",
         [⟨"0xa", "0xs", ⟨"0xa", 4, 10⟩, ⟨⟨"0xa", 4, 11⟩, "sig"⟩,
           TapCoreError.invalidReceivedRAV.toMessage⟩]) :=
  ⟨Or.inl rfl,
   rav_verify_outcome_partition.2.2 "0xa" "0xs" ⟨"0xa", 4, 10⟩ ⟨⟨"0xa", 4, 11⟩, "sig"⟩
     .invalidReceivedRAV (Or.inl rfl)⟩

end IndexerRs

namespace IndexerRs.CommonTap

/-!
`src/common/src/tap_manager.rs`: the receipt admitter. Addresses are modelled
as the lowercase `0x`-prefixed strings of their `Debug` formatting. The
allocations and escrow eventuals are modelled by their current values (`none`
while no value has been produced — `.unwrap_or(false)` then treats the check as
failed); `escrow_accounts` is, as in the source, a plain map from address to
`U256` balance that is queried with the recovered signer address itself.
-/

/-- The message of a TAP receipt. -/
structure ReceiptMessage where
  allocation_id : String
  nonce : Nat
  timestamp_ns : Nat
  value : Nat
  deriving Repr, DecidableEq

/-- An EIP-712 signed receipt. -/
structure SignedReceipt where
  message : ReceiptMessage
  signature : String
  deriving Repr, DecidableEq

/-- A row of `scalar_tap_receipts` as inserted by `verify_and_store_receipt`
(lines 87-99): the allocation id with the `0x` stripped, the timestamp, and the
receipt serialized as json (modelled as the receipt itself). -/
structure StoredReceipt where
  allocation_id : String
  timestamp_ns : Nat
  receipt : SignedReceipt
  deriving Repr, DecidableEq

/-- The errors of `verify_and_store_receipt`, one per early return. -/
inductive AdmitError where
  | ineligibleAllocation (alloc : String)
  | signatureError (e : String)
  | senderNotEligible (signer : String)
  | storageError (e : String)
  deriving Repr, DecidableEq

/-- Step 1 check (lines 50-61): the allocation id of the receipt is a key of
the current allocations map; `false` while the eventual has no value. -/
def allocationEligible (allocations : Option (List String)) (alloc : String) : Bool :=
  (allocations.map (fun as => as.contains alloc)).getD false

/-- Step 2 check (lines 69-84): the recovered signer address is looked up
directly in the escrow accounts map and must have a positive balance; `false`
when the signer is absent or the eventual has no value. -/
def senderEligible (escrowAccounts : Option (List (String × Nat)))
    (signer : String) : Bool :=
  (escrowAccounts.map (fun accounts =>
    match accounts.lookup signer with
    | some balance => decide (0 < balance)
    | none => false)).getD false

/-- `verify_and_store_receipt` (lines 45-107). `recoverSigner` is the
signature-recovery oracle (`receipt.recover_signer(domain)`, external crypto);
`insertResult` models the outcome of the SQL INSERT. Returns the admission
result together with the receipts table after the call. -/
def verify_and_store_receipt (allocations : Option (List String))
    (escrowAccounts : Option (List (String × Nat)))
    (recoverSigner : SignedReceipt → Except String String)
    (insertResult : Except String Unit) (receipt : SignedReceipt)
    (db : List StoredReceipt) : Except AdmitError Unit × List StoredReceipt :=
  if !allocationEligible allocations receipt.message.allocation_id then
    (.error (.ineligibleAllocation receipt.message.allocation_id), db)
  else
    match recoverSigner receipt with
    | .error e => (.error (.signatureError e), db)
    | .ok receiptSigner =>
      if !senderEligible escrowAccounts receiptSigner then
        (.error (.senderNotEligible receiptSigner), db)
      else
        match insertResult with
        | .error e => (.error (.storageError e), db)
        | .ok _ =>
          (.ok (),
           db ++ [⟨receipt.message.allocation_id.drop 2, receipt.message.timestamp_ns,
                   receipt⟩])

/-- C4: whenever `verify_and_store_receipt` returns an error, the receipts
table is unchanged; and the table grows — by exactly the one new row — only
when every admission check has passed and the insert succeeded. -/
theorem admit_error_leaves_db_unchanged (allocations : Option (List String))
    (escrowAccounts : Option (List (String × Nat)))
    (recoverSigner : SignedReceipt → Except String String)
    (insertResult : Except String Unit) (receipt : SignedReceipt)
    (db : List StoredReceipt) :
    (∀ e, (verify_and_store_receipt allocations escrowAccounts recoverSigner
        insertResult receipt db).1 = .error e →
      (verify_and_store_receipt allocations escrowAccounts recoverSigner
        insertResult receipt db).2 = db) ∧
    ((verify_and_store_receipt allocations escrowAccounts recoverSigner
        insertResult receipt db).2 ≠ db →
      (verify_and_store_receipt allocations escrowAccounts recoverSigner
          insertResult receipt db).1 = .ok () ∧
        allocationEligible allocations receipt.message.allocation_id = true ∧
        (∃ signer, recoverSigner receipt = .ok signer ∧
          senderEligible escrowAccounts signer = true) ∧
        (verify_and_store_receipt allocations escrowAccounts recoverSigner
            insertResult receipt db).2 =
          db ++ [⟨receipt.message.allocation_id.drop 2, receipt.message.timestamp_ns,
                  receipt⟩]) := by
  unfold verify_and_store_receipt
  by_cases halloc : allocationEligible allocations receipt.message.allocation_id
  · cases hrec : recoverSigner receipt with
    | error e => simp [halloc, hrec]
    | ok signer =>
      by_cases hsender : senderEligible escrowAccounts signer
      · cases hins : insertResult with
        | error e => simp [halloc, hrec, hsender, hins]
        | ok u =>
          refine ⟨?_, ?_⟩
          · intro e he
            simp [halloc, hrec, hsender, hins] at he
          · intro _
            exact ⟨by simp [halloc, hrec, hsender, hins], halloc,
              ⟨signer, rfl, hsender⟩, by simp [halloc, hrec, hsender, hins]⟩
      · simp [halloc, hrec, hsender]
  · simp [halloc]

/-- Witness for `admit_error_leaves_db_unchanged`: a passing receipt appends
its row, and the ineligible-allocation rejection of the same receipt leaves
the table unchanged. -/
theorem admit_error_leaves_db_unchanged_witness :
    (verify_and_store_receipt (some ["0xaa"]) (some [("0xcc", 5)])
        (fun _ => .ok "0xcc") (.ok ()) ⟨⟨"0xaa", 1, 2, 3⟩, "sig"⟩ []).2 ≠
        ([] : List StoredReceipt) ∧
      (verify_and_store_receipt (some ["0xaa"]) (some [("0xcc", 5)])
          (fun _ => .ok "0xcc") (.ok ()) ⟨⟨"0xaa", 1, 2, 3⟩, "sig"⟩ []).1 = .ok () ∧
      allocationEligible (some ["0xaa"]) "0xaa" = true ∧
      (∃ signer, (fun (_ : SignedReceipt) => Except.ok (ε := String) "0xcc")
          ⟨⟨"0xaa", 1, 2, 3⟩, "sig"⟩ = .ok signer ∧
        senderEligible (some [("0xcc", 5)]) signer = true) ∧
      (verify_and_store_receipt (some ["0xaa"]) (some [("0xcc", 5)])
          (fun _ => .ok "0xcc") (.ok ()) ⟨⟨"0xaa", 1, 2, 3⟩, "sig"⟩ []).2 =
        [] ++ [⟨"aa", 2, ⟨⟨"0xaa", 1, 2, 3⟩, "sig"⟩⟩] := by
  have h := (admit_error_leaves_db_unchanged (some ["0xaa"]) (some [("0xcc", 5)])
      (fun _ => .ok "0xcc") (.ok ()) ⟨⟨"0xaa", 1, 2, 3⟩, "sig"⟩ []).2 (by decide)
  exact ⟨by decide, h.1, h.2.1, h.2.2.1, h.2.2.2⟩

/-- C3 (counterexample): with the allocation eligible and the signer
recovering to `0xcc`, admission against an empty escrow map (no sender knows
the signer) and against an escrow map holding `0xcc` with balance zero
produces the very same error value — the single `senderNotEligible` rejection
built from the signer address itself. The source resolves eligibility by
looking the recovered signer up directly in the balance map; there is no
signers indirection and no distinct `UnknownSigner` failure. -/
theorem unknown_signer_counterexample :
    verify_and_store_receipt (some ["0xaa"]) (some [])
        (fun _ => .ok "0xcc") (.ok ()) ⟨⟨"0xaa", 1, 2, 3⟩, "sig"⟩ [] =
      (.error (.senderNotEligible "0xcc"), []) ∧
      verify_and_store_receipt (some ["0xaa"]) (some [("0xcc", 0)])
          (fun _ => .ok "0xcc") (.ok ()) ⟨⟨"0xaa", 1, 2, 3⟩, "sig"⟩ [] =
        (.error (.senderNotEligible "0xcc"), []) := by
  exact ⟨by rfl, by rfl⟩

/-- C3 (amended): after signature recovery the recovered signer address is
looked up directly in the escrow balance map; `verify_and_store_receipt`
fails with the single sender-not-eligible error exactly when that lookup is
absent or the balance is zero — absent signer and zero balance are not
distinguished. -/
theorem sender_eligibility_is_direct_lookup (allocations : Option (List String))
    (accounts : List (String × Nat))
    (recoverSigner : SignedReceipt → Except String String)
    (insertResult : Except String Unit) (receipt : SignedReceipt)
    (db : List StoredReceipt) (signer : String)
    (halloc : allocationEligible allocations receipt.message.allocation_id = true)
    (hrec : recoverSigner receipt = .ok signer) :
    (verify_and_store_receipt allocations (some accounts) recoverSigner
        insertResult receipt db).1 = .error (.senderNotEligible signer) ↔
      (accounts.lookup signer = none ∨ accounts.lookup signer = some 0) := by
  by_cases hsender : senderEligible (some accounts) signer = true
  · have hbal : ∃ b, accounts.lookup signer = some b ∧ 0 < b := by
      cases hlook : accounts.lookup signer with
      | none =>
        exfalso
        rw [show senderEligible (some accounts) signer = false by
          simp [senderEligible, hlook]] at hsender
        cases hsender
      | some b =>
        refine ⟨b, rfl, ?_⟩
        rw [show senderEligible (some accounts) signer = decide (0 < b) by
          simp [senderEligible, hlook]] at hsender
        exact of_decide_eq_true hsender
    have hnot : ¬ (accounts.lookup signer = none ∨ accounts.lookup signer = some 0) := by
      obtain ⟨b, hb, hpos⟩ := hbal
      rintro (h | h) <;> rw [hb] at h
      · exact Option.noConfusion h
      · have hb0 : b = 0 := Option.some.inj h
        omega
    have hres : (verify_and_store_receipt allocations (some accounts) recoverSigner
        insertResult receipt db).1 ≠ .error (.senderNotEligible signer) := by
      cases hins : insertResult with
      | error e => simp [verify_and_store_receipt, halloc, hrec, hsender, hins]
      | ok u => simp [verify_and_store_receipt, halloc, hrec, hsender, hins]
    exact iff_of_false hres hnot
  · have hF : senderEligible (some accounts) signer = false :=
      Bool.not_eq_true _ ▸ eq_false_of_ne_true hsender
    have hchar : accounts.lookup signer = none ∨ accounts.lookup signer = some 0 := by
      cases hlook : accounts.lookup signer with
      | none => exact Or.inl rfl
      | some b =>
        right
        rw [show senderEligible (some accounts) signer = decide (0 < b) by
          simp [senderEligible, hlook]] at hF
        have hb0 : b = 0 := by
          rcases Nat.eq_zero_or_pos b with h0 | hpos
          · exact h0
          · rw [decide_eq_true hpos] at hF
            cases hF
        rw [hb0]
    have hL : (verify_and_store_receipt allocations (some accounts) recoverSigner
        insertResult receipt db).1 = .error (.senderNotEligible signer) := by
      simp [verify_and_store_receipt, halloc, hrec, hF]
    exact iff_of_true hL hchar

/-- Witness for `sender_eligibility_is_direct_lookup` with the signer absent
from the escrow map. -/
theorem sender_eligibility_is_direct_lookup_witness :
    allocationEligible (some ["0xaa"]) "0xaa" = true ∧
      ((verify_and_store_receipt (some ["0xaa"]) (some [])
          (fun _ => .ok "0xcc") (.ok ()) ⟨⟨"0xaa", 1, 2, 3⟩, "sig"⟩ []).1 =
        .error (.senderNotEligible "0xcc") ↔
        (([] : List (String × Nat)).lookup "0xcc" = none ∨
          ([] : List (String × Nat)).lookup "0xcc" = some 0)) :=
  ⟨by decide,
   sender_eligibility_is_direct_lookup (some ["0xaa"]) [] (fun _ => .ok "0xcc")
     (.ok ()) ⟨⟨"0xaa", 1, 2, 3⟩, "sig"⟩ [] "0xcc" (by decide) rfl⟩

end IndexerRs.CommonTap

namespace IndexerRs.Monitor

/-!
`src/common/src/allocations/monitor.rs`: the allocations snapshot feed.
-/

/-- Allocation status as set by the fragment conversion. -/
inductive AllocationStatus where
  | Null
  | Active
  | Closed
  deriving Repr, DecidableEq

/-- The allocation value stored in the published map. The source conversion
`From<AllocationFragment>` (lines 32-50) parses the id and sets
`status: Null`; every remaining field of the source struct is a `todo!()`
stub, so only these two are modelled. -/
structure Allocation where
  id : String
  status : AllocationStatus
  deriving Repr, DecidableEq

/-- `From<AllocationFragment> for Allocation`. -/
def allocationFromFragment (id : String) : Allocation := ⟨id, .Null⟩

/-- The `indexer` object of the GraphQL response: the active and the recently
closed allocation fragments (modelled by their ids). -/
structure IndexerData where
  active_allocations : List String
  recently_closed_allocations : List String
  deriving Repr, DecidableEq

/-- The body of the refresh closure (lines 61-101): a transport or GraphQL
error is returned as its message string; a response with a null `indexer`
fails with the not-found message; otherwise the map from allocation id to
converted allocation over both fragment lists is produced. -/
def refresh_tick (indexerAddress : String)
    (response : Except String (Option IndexerData)) :
    Except String (List (String × Allocation)) :=
  match response with
  | .error e => .error e
  | .ok none => .error ("Indexer `" ++ indexerAddress ++ "` not found on the network")
  | .ok (some d) =>
    .ok ((d.active_allocations ++ d.recently_closed_allocations).map
      (fun a => (a, allocationFromFragment a)))

/-- One step of `eventuals::map_with_retry` (line 60 and lines 104-113)
around the refresh closure: the retry combinator of the eventuals crate writes
the eventual only with `Ok` values; on `Err` it invokes the handler from the
source, which logs a warning and sleeps `interval.div_f32(2.0)` before the
retry. Returns the published value, whether the warning fired, and the delay
before the next attempt. -/
def feed_step (published : Option (List (String × Allocation)))
    (tickResult : Except String (List (String × Allocation)))
    (interval : Nat) :
    Option (List (String × Allocation)) × Bool × Nat :=
  match tickResult with
  | .error _ => (published, true, interval / 2)
  | .ok m => (some m, false, interval)

/-- C9: any refresh error — the null-indexer case producing exactly the
not-found message among them — logs a warning, leaves the previously-published
value unchanged and retries after half the interval; only a successful query
replaces the published map. -/
theorem refresh_error_keeps_published_value :
    (∀ (published : Option (List (String × Allocation))) (e : String) (interval : Nat),
      feed_step published (.error e) interval = (published, true, interval / 2)) ∧
    (∀ (addr : String), refresh_tick addr (.ok none) =
      .error ("Indexer `" ++ addr ++ "` not found on the network")) ∧
    (∀ (addr e : String), refresh_tick addr (.error e) = .error e) ∧
    (∀ (published : Option (List (String × Allocation))) (addr : String) (interval : Nat),
      feed_step published (refresh_tick addr (.ok none)) interval =
        (published, true, interval / 2)) ∧
    (∀ (published : Option (List (String × Allocation))) (addr : String)
        (d : IndexerData) (interval : Nat),
      feed_step published (refresh_tick addr (.ok (some d))) interval =
        (some ((d.active_allocations ++ d.recently_closed_allocations).map
          (fun a => (a, allocationFromFragment a))), false, interval)) :=
  ⟨fun _ _ _ => rfl, fun _ => rfl, fun _ _ => rfl, fun _ _ _ => rfl, fun _ _ _ _ => rfl⟩

end IndexerRs.Monitor

namespace IndexerRs.TapAdapter

/-!
`src/tap/src/receipt_checks_adapter.rs`: the TAP receipt checks adapter.
-/

open IndexerRs

/-- `ReceiptChecksAdapter::is_unique` (lines 50-75):
`SELECT id FROM scalar_tap_receipts WHERE id != $1 AND signature = $2 LIMIT 1`
fetched optionally, returning `Ok(record.is_none())`; the `u64 → i64`
conversion of `receipt_id` fails above `i64::MAX` with an adapter error. -/
def is_unique (db : List ReceiptRow) (signature : String) (receiptId : Nat) :
    Except String Bool :=
  if receiptId < I64_BOUND then
    .ok ((db.find? (fun r => r.id != receiptId && r.signature == signature)).isNone)
  else .error "out of range integral type conversion attempted"

/-- C10: for an in-range receipt id, `is_unique` returns `true` exactly when
every stored row bearing the same signature is the row with that id — the
already-stored own row of the receipt never makes it non-unique, and appending
the own row does not change the answer. -/
theorem is_unique_ignores_own_row (db : List ReceiptRow) (signature : String)
    (receiptId : Nat) (h : receiptId < I64_BOUND) :
    (is_unique db signature receiptId = .ok true ↔
      ∀ r ∈ db, r.signature = signature → r.id = receiptId) ∧
    (∀ row : ReceiptRow, row.id = receiptId → row.signature = signature →
      is_unique (db ++ [row]) signature receiptId = is_unique db signature receiptId) := by
  constructor
  · rw [show is_unique db signature receiptId =
        .ok ((db.find? (fun r => r.id != receiptId && r.signature == signature)).isNone) by
      simp [is_unique, h]]
    constructor
    · intro hok r hr hsig
      have hnone : (db.find? (fun r => r.id != receiptId && r.signature == signature)).isNone
          = true := by
        have := Except.ok.inj hok
        simp [this]
      rw [Option.isNone_iff_eq_none, List.find?_eq_none] at hnone
      have := hnone r hr
      by_contra hid
      exact this (by simp [hid, hsig])
    · intro hall
      have hnone : db.find? (fun r => r.id != receiptId && r.signature == signature)
          = none := by
        rw [List.find?_eq_none]
        intro r hr
        simp only [Bool.and_eq_true, bne_iff_ne, beq_iff_eq, not_and]
        intro hid hsig
        exact hid (hall r hr hsig)
      simp [hnone]
  · intro row hid hsig
    have hpred : (fun r : ReceiptRow => r.id != receiptId && r.signature == signature) row
        = false := by
      simp [hid]
    simp [is_unique, h, List.find?_append, hpred]

/-- Witness for `is_unique_ignores_own_row`: a table holding only the own row
of receipt 2 (same signature) still reports it unique. -/
theorem is_unique_ignores_own_row_witness :
    (2 : Nat) < I64_BOUND ∧
      (is_unique [⟨2, "0xa", "0xsg", "dup", 2, 2, 2⟩] "dup" 2 = .ok true ↔
        ∀ r ∈ [(⟨2, "0xa", "0xsg", "dup", 2, 2, 2⟩ : ReceiptRow)],
          r.signature = "dup" → r.id = 2) :=
  ⟨by decide,
   (is_unique_ignores_own_row [⟨2, "0xa", "0xsg", "dup", 2, 2, 2⟩] "dup" 2 (by decide)).1⟩

end IndexerRs.TapAdapter
